import Mathlib

/-!
Verification of the tiny-rusty-raytracer core against its specification.

The Rust core (`src/lib.rs`) is shallowly embedded over the real numbers:
`f64` scalars become `ℝ`, `f64::sqrt` becomes `Real.sqrt`, and the
out-parameter style of `Sphere::ray_intersect` / `scene_intersect` is made
explicit by passing the pre-call values of the out-parameters in and
returning their post-call values.  A Rust `panic!` (out-of-range vector
index) is modelled as the `none` case of an `Option` result.
-/

noncomputable section

namespace TinyRustyRaytracer

/-- Embeds `struct Vector3 { x: f64, y: f64, z: f64 }`. -/
@[ext]
structure Vector3 where
  x : ℝ
  y : ℝ
  z : ℝ

/-- Embeds `Vector3::new`. -/
def Vector3.new (x y z : ℝ) : Vector3 := ⟨x, y, z⟩

/-- Embeds `Vector3::new_zero`. -/
def Vector3.new_zero : Vector3 := ⟨0, 0, 0⟩

/-- Embeds `Vector3::cross`. -/
def Vector3.cross (a v : Vector3) : Vector3 :=
  ⟨a.y * v.z - a.z * v.y, a.z * v.x - a.x * v.z, a.x * v.y - a.y * v.x⟩

/-- Embeds `Vector3::norm`: `(x.powi(2) + y.powi(2) + z.powi(2)).sqrt()`. -/
def Vector3.norm (v : Vector3) : ℝ :=
  Real.sqrt (v.x ^ 2 + v.y ^ 2 + v.z ^ 2)

/-- Embeds `Vector3::normalize`: every component divided by `norm()`. -/
def Vector3.normalize (v : Vector3) : Vector3 :=
  ⟨v.x / v.norm, v.y / v.norm, v.z / v.norm⟩

/-- Embeds `impl ops::Mul<Vector3> for Vector3` (the dot product). -/
def Vector3.dot (a v : Vector3) : ℝ :=
  a.x * v.x + a.y * v.y + a.z * v.z

/-- Embeds `impl ops::Mul<f64> for Vector3` (scalar multiplication, `v * k`). -/
def Vector3.mulScalar (v : Vector3) (k : ℝ) : Vector3 :=
  ⟨k * v.x, k * v.y, k * v.z⟩

/-- Embeds `impl ops::Add<Vector3> for Vector3`. -/
def Vector3.add (a v : Vector3) : Vector3 :=
  ⟨a.x + v.x, a.y + v.y, a.z + v.z⟩

/-- Embeds `impl ops::Sub<Vector3> for Vector3`. -/
def Vector3.sub (a v : Vector3) : Vector3 :=
  ⟨a.x - v.x, a.y - v.y, a.z - v.z⟩

/-- Embeds `impl ops::Neg for Vector3`: each component multiplied by `-1.0`. -/
def Vector3.neg (v : Vector3) : Vector3 :=
  ⟨v.x * (-1), v.y * (-1), v.z * (-1)⟩

/-- Embeds `impl ops::Index<usize> for Vector3`; the `panic!` arm for an
out-of-range index is modelled as `none`. -/
def Vector3.indexGet (v : Vector3) (i : ℕ) : Option ℝ :=
  match i with
  | 0 => some v.x
  | 1 => some v.y
  | 2 => some v.z
  | _ => none

/-- Embeds assignment through `impl ops::IndexMut<usize> for Vector3`:
`v[i] = a` updates exactly the selected component; the `panic!` arm for an
out-of-range index is modelled as `none`. -/
def Vector3.indexSet (v : Vector3) (i : ℕ) (a : ℝ) : Option Vector3 :=
  match i with
  | 0 => some ⟨a, v.y, v.z⟩
  | 1 => some ⟨v.x, a, v.z⟩
  | 2 => some ⟨v.x, v.y, a⟩
  | _ => none

/-- Embeds `struct Material { color: Vector3 }`. -/
structure Material where
  color : Vector3

/-- Embeds `Material::new`. -/
def Material.new (color : Vector3) : Material := ⟨color⟩

/-- Embeds `struct Sphere { center, radius, material }`. -/
structure Sphere where
  center : Vector3
  radius : ℝ
  material : Material

/-- Embeds `Sphere::new`. -/
def Sphere.new (center : Vector3) (radius : ℝ) (material : Material) : Sphere :=
  ⟨center, radius, material⟩

/-- The local `l = self.center - *orig` of `Sphere::ray_intersect`. -/
def Sphere.lvec (s : Sphere) (orig : Vector3) : Vector3 :=
  Vector3.sub s.center orig

/-- The local `tca = l * *dir` of `Sphere::ray_intersect`. -/
def Sphere.tca (s : Sphere) (orig dir : Vector3) : ℝ :=
  Vector3.dot (s.lvec orig) dir

/-- The local `d2 = l * l - tca * tca` of `Sphere::ray_intersect`. -/
def Sphere.d2 (s : Sphere) (orig dir : Vector3) : ℝ :=
  Vector3.dot (s.lvec orig) (s.lvec orig) - s.tca orig dir * s.tca orig dir

/-- The local `thc = (r2 - d2).sqrt()` of `Sphere::ray_intersect`. -/
def Sphere.thc (s : Sphere) (orig dir : Vector3) : ℝ :=
  Real.sqrt (s.radius ^ 2 - s.d2 orig dir)

/-- Embeds `Sphere::ray_intersect(orig, dir, t0) -> bool`.  The `t0`
out-parameter is explicit: `t0` is its value before the call and the second
component of the result is its value after the call.  The branch structure
mirrors the Rust source: early return on `d2 > r2` (leaving `t0`
untouched), then `*t0 = tca - thc`, substitution of `t1 = tca + thc` when
`*t0 < 0.0`, and failure when the substitute is still `< 0.0`. -/
def Sphere.ray_intersect (s : Sphere) (orig dir : Vector3) (t0 : ℝ) : Bool × ℝ :=
  if s.d2 orig dir > s.radius ^ 2 then (false, t0)
  else if s.tca orig dir - s.thc orig dir < 0 then
    if s.tca orig dir + s.thc orig dir < 0 then
      (false, s.tca orig dir + s.thc orig dir)
    else
      (true, s.tca orig dir + s.thc orig dir)
  else
    (true, s.tca orig dir - s.thc orig dir)

/-- The hit distance reported by `Sphere::ray_intersect` when it returns
`true` (with the fresh `dist_i = 0.0` that `scene_intersect` passes in),
and `none` when it returns `false`. -/
def Sphere.rayHit (s : Sphere) (orig dir : Vector3) : Option ℝ :=
  if (s.ray_intersect orig dir 0).1 then some (s.ray_intersect orig dir 0).2
  else none

/-- The values `scene_intersect` stores into its `hit`, `n` and `material`
out-parameters when a sphere at distance `t` becomes the running nearest:
`*hit = *orig + (*dir * dist_i)`, `*n = (*hit - sphere.center).normalize()`,
`*material = sphere.material`. -/
def hitWrite (orig dir : Vector3) (s : Sphere) (t : ℝ) : Vector3 × Vector3 × Material :=
  (Vector3.add orig (Vector3.mulScalar dir t),
   Vector3.normalize (Vector3.sub (Vector3.add orig (Vector3.mulScalar dir t)) s.center),
   s.material)

/-- The initial value `std::f64::MAX` of `spheres_dist`, which is exactly
`(2^53 - 1) * 2^971`. -/
def f64MAX : ℝ := (2 ^ 53 - 1) * 2 ^ 971

/-- The `for sphere in spheres` loop of `scene_intersect`: the state is
`(spheres_dist, (hit, n, material))`, updated whenever
`sphere.ray_intersect(orig, dir, &mut dist_i) && dist_i < spheres_dist`. -/
def sceneLoop (orig dir : Vector3) :
    List Sphere → ℝ × (Vector3 × Vector3 × Material) → ℝ × (Vector3 × Vector3 × Material)
  | [], st => st
  | s :: rest, (sd, out) =>
    if (s.ray_intersect orig dir 0).1 = true ∧ (s.ray_intersect orig dir 0).2 < sd then
      sceneLoop orig dir rest
        ((s.ray_intersect orig dir 0).2, hitWrite orig dir s (s.ray_intersect orig dir 0).2)
    else
      sceneLoop orig dir rest (sd, out)

/-- Embeds `scene_intersect`.  The `hit`, `n`, `material` out-parameters
are explicit: their pre-call values are arguments and their post-call
values are returned next to the boolean `spheres_dist < 1000.0`. -/
def scene_intersect (orig dir : Vector3) (spheres : List Sphere)
    (hit n : Vector3) (material : Material) : Bool × (Vector3 × Vector3 × Material) :=
  (if (sceneLoop orig dir spheres (f64MAX, hit, n, material)).1 < 1000 then true else false,
   (sceneLoop orig dir spheres (f64MAX, hit, n, material)).2)

/-- Embeds `cast_ray`: fresh zero-initialized out-parameters, background
color `(0.2, 0.7, 0.8)` on miss, the winning material's color on hit. -/
def cast_ray (orig dir : Vector3) (spheres : List Sphere) : Vector3 :=
  if (scene_intersect orig dir spheres Vector3.new_zero Vector3.new_zero
        (Material.new Vector3.new_zero)).1 then
    ((scene_intersect orig dir spheres Vector3.new_zero Vector3.new_zero
        (Material.new Vector3.new_zero)).2.2.2).color
  else
    Vector3.new 0.2 0.7 0.8

/-- C7: the dot product commutes, the cross product is anti-commutative,
and the cross product of any vector with itself is the zero vector. -/
theorem dot_comm_cross_anticomm_cross_self (a b : Vector3) :
    Vector3.dot a b = Vector3.dot b a ∧
    Vector3.cross a b = Vector3.neg (Vector3.cross b a) ∧
    Vector3.cross a a = Vector3.new_zero := by
  refine ⟨by simp only [Vector3.dot]; ring, ?_, ?_⟩
  · simp only [Vector3.cross, Vector3.neg, Vector3.mk.injEq]
    refine ⟨by ring, by ring, by ring⟩
  · simp only [Vector3.cross, Vector3.new_zero, Vector3.mk.injEq]
    refine ⟨by ring, by ring, by ring⟩

/-- C6: indexed reads at 0, 1, 2 yield the `x`, `y`, `z` components,
indexed assignment at 0, 1, 2 updates exactly that component, and every
index greater than or equal to 3 reaches the `panic!` arm (modelled as
`none`) for both read and assignment. -/
theorem vector3_indexing_spec (v : Vector3) (a : ℝ) (i : ℕ) :
    v.indexGet 0 = some v.x ∧ v.indexGet 1 = some v.y ∧ v.indexGet 2 = some v.z ∧
    v.indexSet 0 a = some ⟨a, v.y, v.z⟩ ∧
    v.indexSet 1 a = some ⟨v.x, a, v.z⟩ ∧
    v.indexSet 2 a = some ⟨v.x, v.y, a⟩ ∧
    (3 ≤ i → v.indexGet i = none ∧ v.indexSet i a = none) := by
  refine ⟨rfl, rfl, rfl, rfl, rfl, rfl, fun hi => ?_⟩
  match i with
  | 0 => omega
  | 1 => omega
  | 2 => omega
  | k + 3 => exact ⟨rfl, rfl⟩

/-- C6 witness: concrete instance of the out-of-range behavior at index 5. -/
theorem vector3_indexing_spec_witness :
    Vector3.indexGet ⟨1, 2, 3⟩ 5 = none ∧ Vector3.indexSet ⟨1, 2, 3⟩ 5 9 = none :=
  (vector3_indexing_spec ⟨1, 2, 3⟩ 9 5).2.2.2.2.2.2 (by norm_num)

/-- A nonzero vector has strictly positive norm. -/
lemma norm_pos_of_ne_zero (v : Vector3) (hv : v ≠ Vector3.new_zero) : 0 < v.norm := by
  rw [Vector3.norm, Real.sqrt_pos]
  rcases lt_or_eq_of_le (by positivity : (0:ℝ) ≤ v.x ^ 2 + v.y ^ 2 + v.z ^ 2) with h | h
  · exact h
  · exfalso
    apply hv
    have hx : v.x = 0 := by nlinarith [sq_nonneg v.x, sq_nonneg v.y, sq_nonneg v.z]
    have hy : v.y = 0 := by nlinarith [sq_nonneg v.x, sq_nonneg v.y, sq_nonneg v.z]
    have hz : v.z = 0 := by nlinarith [sq_nonneg v.x, sq_nonneg v.y, sq_nonneg v.z]
    rw [Vector3.new_zero]
    exact Vector3.ext hx hy hz

/-- C8: `normalize` divides every component by `norm()`; for every nonzero
vector the result has norm exactly 1 (the real-number idealization of
"approximately 1 within floating-point tolerance"); on the zero vector the
unguarded division degenerates and the result is not a unit vector (its
norm is 0 in this model, where the division is total). -/
theorem normalize_unit_norm (v : Vector3) :
    v.normalize = ⟨v.x / v.norm, v.y / v.norm, v.z / v.norm⟩ ∧
    (v ≠ Vector3.new_zero → v.normalize.norm = 1) ∧
    Vector3.new_zero.normalize.norm = 0 := by
  refine ⟨rfl, fun hv => ?_, ?_⟩
  · have hn : 0 < v.norm := norm_pos_of_ne_zero v hv
    have hs : 0 < v.x ^ 2 + v.y ^ 2 + v.z ^ 2 := by
      have := hn
      rw [Vector3.norm, Real.sqrt_pos] at this
      exact this
    rw [Vector3.normalize, Vector3.norm]
    have harg : (v.x / v.norm) ^ 2 + (v.y / v.norm) ^ 2 + (v.z / v.norm) ^ 2
        = (v.x ^ 2 + v.y ^ 2 + v.z ^ 2) / (v.x ^ 2 + v.y ^ 2 + v.z ^ 2) := by
      rw [div_pow, div_pow, div_pow, Vector3.norm, Real.sq_sqrt hs.le]
      ring
    rw [harg, div_self hs.ne', Real.sqrt_one]
  · simp [Vector3.new_zero, Vector3.normalize, Vector3.norm]

/-- C8 witness: the unit vector along `-z` normalizes to norm 1. -/
theorem normalize_unit_norm_witness : (Vector3.mk 0 0 (-1)).normalize.norm = 1 :=
  (normalize_unit_norm ⟨0, 0, (-1)⟩).2.1 (by
    intro h
    rw [Vector3.new_zero] at h
    have := congrArg Vector3.z h
    norm_num at this)

/-- `rayHit` is `some t` exactly when `ray_intersect` (with a fresh
`dist_i = 0`) returns `true` with `t` stored in the out-parameter. -/
lemma rayHit_eq_some_iff (s : Sphere) (orig dir : Vector3) (t : ℝ) :
    s.rayHit orig dir = some t ↔ s.ray_intersect orig dir 0 = (true, t) := by
  rw [Sphere.rayHit]
  rcases hri : s.ray_intersect orig dir 0 with ⟨b, u⟩
  cases b
  · simp
  · simp [eq_comm]

/-- Whenever `ray_intersect` returns `true`, the distance it stored into
the out-parameter is nonnegative. -/
lemma ray_intersect_true_nonneg (s : Sphere) (orig dir : Vector3) (tin : ℝ)
    (h : (s.ray_intersect orig dir tin).1 = true) :
    0 ≤ (s.ray_intersect orig dir tin).2 := by
  rw [Sphere.ray_intersect] at h ⊢
  split_ifs at h ⊢ with h1 h2 h3
  all_goals simp_all

/-- Evaluation helper: a sphere centered at `(0, 0, -c)` of radius `r`
against the ray from the origin along `(0, 0, -1)`, when the entry point
`c - r` is in front of the origin, is hit at distance `c - r`. -/
lemma rayHit_axis (c r : ℝ) (m : Material) (hr : 0 ≤ r) (h : 0 ≤ c - r) :
    (Sphere.new (Vector3.new 0 0 (-c)) r m).rayHit (Vector3.new 0 0 0) (Vector3.new 0 0 (-1))
      = some (c - r) := by
  have hd2 : (Sphere.new (Vector3.new 0 0 (-c)) r m).d2 (Vector3.new 0 0 0) (Vector3.new 0 0 (-1))
      = 0 := by
    simp only [Sphere.d2, Sphere.tca, Sphere.lvec, Sphere.new, Vector3.new, Vector3.dot,
      Vector3.sub]
    ring
  have htca : (Sphere.new (Vector3.new 0 0 (-c)) r m).tca (Vector3.new 0 0 0)
      (Vector3.new 0 0 (-1)) = c := by
    simp only [Sphere.tca, Sphere.lvec, Sphere.new, Vector3.new, Vector3.dot, Vector3.sub]
    ring
  have hrad : (Sphere.new (Vector3.new 0 0 (-c)) r m).radius = r := rfl
  have hthc : (Sphere.new (Vector3.new 0 0 (-c)) r m).thc (Vector3.new 0 0 0)
      (Vector3.new 0 0 (-1)) = r := by
    rw [Sphere.thc, hd2, sub_zero, hrad, Real.sqrt_sq hr]
  rw [Sphere.rayHit, Sphere.ray_intersect, hd2, htca, hthc, hrad]
  rw [if_neg (not_lt.mpr (by positivity : (0:ℝ) ≤ r ^ 2))]
  rw [if_neg (not_lt.mpr h)]
  simp

/-- C1: `ray_intersect` computes `tca = dot(center − origin, dir)` and
`d² = dot(L, L) − tca²`; when `d² ≤ r²` it reports the entry distance
`t0 = tca − √(r² − d²)`, substitutes the exit distance `t1 = tca + √(r² − d²)`
when `t0 < 0`, and reports no hit when the substitute is also negative
(zero counts as a hit, the tests being strict `< 0`); otherwise it reports
no hit.  Concretely, the sphere at `(0,0,-5)` of radius 1 is hit by the ray
from the origin along `(0,0,-1)` at distance 4, and the sphere at the
origin of radius 2 is hit by the same ray at distance 2 via the `t1`
branch. -/
theorem ray_intersect_selection_policy :
    (∀ (s : Sphere) (orig dir : Vector3),
      s.tca orig dir = Vector3.dot (Vector3.sub s.center orig) dir ∧
      s.d2 orig dir = Vector3.dot (Vector3.sub s.center orig) (Vector3.sub s.center orig)
          - s.tca orig dir * s.tca orig dir ∧
      s.rayHit orig dir =
        if s.d2 orig dir ≤ s.radius ^ 2 then
          if s.tca orig dir - Real.sqrt (s.radius ^ 2 - s.d2 orig dir) < 0 then
            if s.tca orig dir + Real.sqrt (s.radius ^ 2 - s.d2 orig dir) < 0 then none
            else some (s.tca orig dir + Real.sqrt (s.radius ^ 2 - s.d2 orig dir))
          else some (s.tca orig dir - Real.sqrt (s.radius ^ 2 - s.d2 orig dir))
        else none) ∧
    (Sphere.new (Vector3.new 0 0 (-5)) 1 (Material.new Vector3.new_zero)).rayHit
      (Vector3.new 0 0 0) (Vector3.new 0 0 (-1)) = some 4 ∧
    (Sphere.new (Vector3.new 0 0 0) 2 (Material.new Vector3.new_zero)).rayHit
      (Vector3.new 0 0 0) (Vector3.new 0 0 (-1)) = some 2 := by
  refine ⟨fun s orig dir => ⟨rfl, rfl, ?_⟩, ?_, ?_⟩
  · rw [Sphere.rayHit, Sphere.ray_intersect]
    rw [show Real.sqrt (s.radius ^ 2 - s.d2 orig dir) = s.thc orig dir from rfl]
    by_cases h1 : s.d2 orig dir > s.radius ^ 2
    · rw [if_pos h1, if_neg (not_le.mpr h1)]
      simp
    · rw [if_neg h1, if_pos (le_of_not_lt h1)]
      by_cases h2 : s.tca orig dir - s.thc orig dir < 0
      · rw [if_pos h2, if_pos h2]
        by_cases h3 : s.tca orig dir + s.thc orig dir < 0
        · rw [if_pos h3, if_pos h3]
          simp
        · rw [if_neg h3, if_neg h3]
          simp
      · rw [if_neg h2, if_neg h2]
        simp
  · have := rayHit_axis 5 1 (Material.new Vector3.new_zero) (by norm_num) (by norm_num)
    rw [this]
    norm_num
  · have hd2 : (Sphere.new (Vector3.new 0 0 0) 2 (Material.new Vector3.new_zero)).d2
        (Vector3.new 0 0 0) (Vector3.new 0 0 (-1)) = 0 := by
      simp only [Sphere.d2, Sphere.tca, Sphere.lvec, Sphere.new, Vector3.new, Vector3.dot,
        Vector3.sub]
      ring
    have htca : (Sphere.new (Vector3.new 0 0 0) 2 (Material.new Vector3.new_zero)).tca
        (Vector3.new 0 0 0) (Vector3.new 0 0 (-1)) = 0 := by
      simp only [Sphere.tca, Sphere.lvec, Sphere.new, Vector3.new, Vector3.dot, Vector3.sub]
      ring
    have hrad : (Sphere.new (Vector3.new 0 0 0) 2 (Material.new Vector3.new_zero)).radius
        = (2:ℝ) := rfl
    have hthc : (Sphere.new (Vector3.new 0 0 0) 2 (Material.new Vector3.new_zero)).thc
        (Vector3.new 0 0 0) (Vector3.new 0 0 (-1)) = 2 := by
      rw [Sphere.thc, hd2, sub_zero, hrad, Real.sqrt_sq (by norm_num : (0:ℝ) ≤ 2)]
    rw [Sphere.rayHit, Sphere.ray_intersect, hd2, htca, hthc, hrad]
    rw [if_neg (by norm_num : ¬((0:ℝ) > 2 ^ 2)), if_pos (by norm_num : (0:ℝ) - 2 < 0),
      if_neg (by norm_num : ¬((0:ℝ) + 2 < 0))]
    norm_num

/-- C4 counterexample: the ray from the origin along `(0,0,-1)` is tangent
to the sphere centered at `(1,0,-5)` of radius 1 (its squared perpendicular
distance to the ray's line equals the squared radius), yet `ray_intersect`
reports a hit at distance 5 instead of the no-hit the claim predicts. -/
theorem tangent_ray_counterexample :
    (Sphere.new (Vector3.new 1 0 (-5)) 1 (Material.new Vector3.new_zero)).d2
        (Vector3.new 0 0 0) (Vector3.new 0 0 (-1))
      = (Sphere.new (Vector3.new 1 0 (-5)) 1 (Material.new Vector3.new_zero)).radius ^ 2 ∧
    (Sphere.new (Vector3.new 1 0 (-5)) 1 (Material.new Vector3.new_zero)).rayHit
        (Vector3.new 0 0 0) (Vector3.new 0 0 (-1)) = some 5 := by
  have hd2 : (Sphere.new (Vector3.new 1 0 (-5)) 1 (Material.new Vector3.new_zero)).d2
      (Vector3.new 0 0 0) (Vector3.new 0 0 (-1)) = 1 := by
    simp only [Sphere.d2, Sphere.tca, Sphere.lvec, Sphere.new, Vector3.new, Vector3.dot,
      Vector3.sub]
    ring
  have htca : (Sphere.new (Vector3.new 1 0 (-5)) 1 (Material.new Vector3.new_zero)).tca
      (Vector3.new 0 0 0) (Vector3.new 0 0 (-1)) = 5 := by
    simp only [Sphere.tca, Sphere.lvec, Sphere.new, Vector3.new, Vector3.dot, Vector3.sub]
    ring
  have hrad : (Sphere.new (Vector3.new 1 0 (-5)) 1 (Material.new Vector3.new_zero)).radius
      = (1:ℝ) := rfl
  have hthc : (Sphere.new (Vector3.new 1 0 (-5)) 1 (Material.new Vector3.new_zero)).thc
      (Vector3.new 0 0 0) (Vector3.new 0 0 (-1)) = 0 := by
    rw [Sphere.thc, hd2, hrad]
    norm_num
  refine ⟨by rw [hd2, hrad]; norm_num, ?_⟩
  rw [Sphere.rayHit, Sphere.ray_intersect, hd2, htca, hthc, hrad]
  rw [if_neg (by norm_num : ¬((1:ℝ) > 1 ^ 2)), if_neg (by norm_num : ¬((5:ℝ) - 0 < 0))]
  norm_num

/-- C4 amended: rays with `d² > r²` miss, but a tangent ray (`d² = r²`) is
treated like an ordinary hit: both candidate distances coincide at `tca`
(since `thc = √0 = 0`), so the touching point is reported at distance `tca`
whenever `tca ≥ 0`, and no-hit is reported only when `tca < 0`. -/
theorem tangent_ray_amended (s : Sphere) (orig dir : Vector3) :
    (s.d2 orig dir = s.radius ^ 2 →
      s.rayHit orig dir = if s.tca orig dir < 0 then none else some (s.tca orig dir)) ∧
    (s.d2 orig dir > s.radius ^ 2 → s.rayHit orig dir = none) := by
  constructor
  · intro heq
    have hthc : s.thc orig dir = 0 := by
      rw [Sphere.thc, heq, sub_self, Real.sqrt_zero]
    rw [Sphere.rayHit, Sphere.ray_intersect, hthc, heq]
    rw [if_neg (lt_irrefl (s.radius ^ 2))]
    by_cases htca : s.tca orig dir < 0
    · rw [sub_zero, add_zero, if_pos htca, if_pos htca, if_pos htca]
      simp
    · rw [sub_zero, add_zero, if_neg htca, if_neg htca]
      simp
  · intro hgt
    rw [Sphere.rayHit, Sphere.ray_intersect, if_pos hgt]
    simp

/-- C4 witness: the tangent sphere centered at `(0,1,-7)` of radius 1 is
reported hit at distance `tca = 7 ≥ 0`. -/
theorem tangent_ray_amended_witness :
    (Sphere.new (Vector3.new 0 1 (-7)) 1 (Material.new Vector3.new_zero)).rayHit
        (Vector3.new 0 0 0) (Vector3.new 0 0 (-1)) = some 7 := by
  have htca : (Sphere.new (Vector3.new 0 1 (-7)) 1 (Material.new Vector3.new_zero)).tca
      (Vector3.new 0 0 0) (Vector3.new 0 0 (-1)) = 7 := by
    simp only [Sphere.tca, Sphere.lvec, Sphere.new, Vector3.new, Vector3.dot, Vector3.sub]
    ring
  have h := (tangent_ray_amended
      (Sphere.new (Vector3.new 0 1 (-7)) 1 (Material.new Vector3.new_zero))
      (Vector3.new 0 0 0) (Vector3.new 0 0 (-1))).1 (by
    simp only [Sphere.d2, Sphere.tca, Sphere.lvec, Sphere.new, Vector3.new, Vector3.dot,
      Vector3.sub]
    norm_num)
  rw [htca] at h
  rw [h, if_neg (by norm_num : ¬((7:ℝ) < 0))]

/-- C10: `ray_intersect` leaves the `t0` out-parameter untouched on the
`d² > r²` miss path, stores the negative `t1` into `t0` on the
both-roots-negative miss path, and stores a nonnegative distance whenever
it returns `true`. -/
theorem ray_intersect_outparam_frame (s : Sphere) (orig dir : Vector3) (tin : ℝ) :
    (s.d2 orig dir > s.radius ^ 2 → s.ray_intersect orig dir tin = (false, tin)) ∧
    (s.d2 orig dir ≤ s.radius ^ 2 →
      s.tca orig dir - s.thc orig dir < 0 →
      s.tca orig dir + s.thc orig dir < 0 →
      s.ray_intersect orig dir tin = (false, s.tca orig dir + s.thc orig dir) ∧
        s.tca orig dir + s.thc orig dir < 0) ∧
    ((s.ray_intersect orig dir tin).1 = true → 0 ≤ (s.ray_intersect orig dir tin).2) := by
  refine ⟨fun hgt => ?_, fun h1 h2 h3 => ⟨?_, h3⟩, ray_intersect_true_nonneg s orig dir tin⟩
  · rw [Sphere.ray_intersect, if_pos hgt]
  · rw [Sphere.ray_intersect, if_neg (not_lt.mpr h1), if_pos h2, if_pos h3]

/-- C10 witness: concrete instances of all three branches — a sideways
miss leaves `t0 = 7` untouched, a sphere behind the ray stores `-4` into
`t0` while returning `false`, and a genuine hit stores the nonnegative
distance 4. -/
theorem ray_intersect_outparam_frame_witness :
    (Sphere.new (Vector3.new 10 0 0) 1 (Material.new Vector3.new_zero)).ray_intersect
        (Vector3.new 0 0 0) (Vector3.new 0 0 (-1)) 7 = (false, 7) ∧
    (Sphere.new (Vector3.new 0 0 5) 1 (Material.new Vector3.new_zero)).ray_intersect
        (Vector3.new 0 0 0) (Vector3.new 0 0 (-1)) 0 = (false, -4) ∧
    0 ≤ ((Sphere.new (Vector3.new 0 0 (-5)) 1 (Material.new Vector3.new_zero)).ray_intersect
        (Vector3.new 0 0 0) (Vector3.new 0 0 (-1)) 0).2 := by
  refine ⟨?_, ?_, ?_⟩
  · exact (ray_intersect_outparam_frame _ _ _ _).1 (by
      simp only [Sphere.d2, Sphere.tca, Sphere.lvec, Sphere.new, Vector3.new, Vector3.dot,
        Vector3.sub]
      norm_num)
  · have htca : (Sphere.new (Vector3.new 0 0 5) 1 (Material.new Vector3.new_zero)).tca
        (Vector3.new 0 0 0) (Vector3.new 0 0 (-1)) = -5 := by
      simp only [Sphere.tca, Sphere.lvec, Sphere.new, Vector3.new, Vector3.dot, Vector3.sub]
      ring
    have hd2 : (Sphere.new (Vector3.new 0 0 5) 1 (Material.new Vector3.new_zero)).d2
        (Vector3.new 0 0 0) (Vector3.new 0 0 (-1)) = 0 := by
      simp only [Sphere.d2, Sphere.tca, Sphere.lvec, Sphere.new, Vector3.new, Vector3.dot,
        Vector3.sub]
      ring
    have hthc : (Sphere.new (Vector3.new 0 0 5) 1 (Material.new Vector3.new_zero)).thc
        (Vector3.new 0 0 0) (Vector3.new 0 0 (-1)) = 1 := by
      rw [Sphere.thc, hd2, sub_zero,
        show (Sphere.new (Vector3.new 0 0 5) 1 (Material.new Vector3.new_zero)).radius
          = (1:ℝ) from rfl]
      norm_num
    have h := ((ray_intersect_outparam_frame
        (Sphere.new (Vector3.new 0 0 5) 1 (Material.new Vector3.new_zero))
        (Vector3.new 0 0 0) (Vector3.new 0 0 (-1)) 0).2.1
      (by rw [hd2]; positivity)
      (by rw [htca, hthc]; norm_num)
      (by rw [htca, hthc]; norm_num)).1
    rw [htca, hthc] at h
    rw [h]
    norm_num
  · apply (ray_intersect_outparam_frame _ _ _ _).2.2
    have h4 := rayHit_axis 5 1 (Material.new Vector3.new_zero) (by norm_num) (by norm_num)
    rw [rayHit_eq_some_iff] at h4
    rw [h4]

/-- The far plane is below `std::f64::MAX`. -/
lemma f64MAX_ge : (1000:ℝ) ≤ f64MAX := by
  rw [f64MAX]
  norm_num

/-- The loop of `scene_intersect` either leaves its state untouched, or
ends with the state of some sphere of the list that was hit strictly
below the initial `spheres_dist`. -/
lemma sceneLoop_cases (orig dir : Vector3) (l : List Sphere) :
    ∀ (sd : ℝ) (out : Vector3 × Vector3 × Material),
      sceneLoop orig dir l (sd, out) = (sd, out) ∨
      ∃ s ∈ l, ∃ t, s.rayHit orig dir = some t ∧ t < sd ∧
        sceneLoop orig dir l (sd, out) = (t, hitWrite orig dir s t) := by
  induction l with
  | nil =>
    intro sd out
    exact Or.inl rfl
  | cons s rest ih =>
    intro sd out
    rw [sceneLoop]
    by_cases hc : (s.ray_intersect orig dir 0).1 = true ∧ (s.ray_intersect orig dir 0).2 < sd
    · rw [if_pos hc]
      have hhit : s.rayHit orig dir = some (s.ray_intersect orig dir 0).2 :=
        (rayHit_eq_some_iff s orig dir _).mpr (Prod.ext hc.1 rfl)
      rcases ih (s.ray_intersect orig dir 0).2
          (hitWrite orig dir s (s.ray_intersect orig dir 0).2) with h | ⟨s', hs', t', ht', hlt', heq'⟩
      · exact Or.inr ⟨s, List.mem_cons_self s rest, (s.ray_intersect orig dir 0).2,
          hhit, hc.2, h⟩
      · exact Or.inr ⟨s', List.mem_cons_of_mem s hs', t', ht', lt_trans hlt' hc.2, heq'⟩
    · rw [if_neg hc]
      rcases ih sd out with h | ⟨s', hs', t', ht', hlt', heq'⟩
      · exact Or.inl h
      · exact Or.inr ⟨s', List.mem_cons_of_mem s hs', t', ht', hlt', heq'⟩

/-- The final `spheres_dist` is a lower bound: it never exceeds its initial
value nor the hit distance of any sphere of the list. -/
lemma sceneLoop_fst_min (orig dir : Vector3) (l : List Sphere) :
    ∀ (sd : ℝ) (out : Vector3 × Vector3 × Material),
      (sceneLoop orig dir l (sd, out)).1 ≤ sd ∧
      ∀ s ∈ l, ∀ t, s.rayHit orig dir = some t → (sceneLoop orig dir l (sd, out)).1 ≤ t := by
  induction l with
  | nil =>
    intro sd out
    refine ⟨le_refl _, ?_⟩
    intro s hs
    simp at hs
  | cons s rest ih =>
    intro sd out
    rw [sceneLoop]
    by_cases hc : (s.ray_intersect orig dir 0).1 = true ∧ (s.ray_intersect orig dir 0).2 < sd
    · rw [if_pos hc]
      obtain ⟨h1, h2⟩ := ih (s.ray_intersect orig dir 0).2
        (hitWrite orig dir s (s.ray_intersect orig dir 0).2)
      refine ⟨le_trans h1 (le_of_lt hc.2), ?_⟩
      intro s' hs' t ht
      rcases List.mem_cons.mp hs' with heq | hmem
      · subst heq
        rw [rayHit_eq_some_iff] at ht
        have h2t : (s'.ray_intersect orig dir 0).2 = t := by rw [ht]
        rw [← h2t]
        exact h1
      · exact h2 s' hmem t ht
    · rw [if_neg hc]
      obtain ⟨h1, h2⟩ := ih sd out
      refine ⟨h1, ?_⟩
      intro s' hs' t ht
      rcases List.mem_cons.mp hs' with heq | hmem
      · subst heq
        rw [rayHit_eq_some_iff] at ht
        have h1t : (s'.ray_intersect orig dir 0).1 = true := by rw [ht]
        have h2t : (s'.ray_intersect orig dir 0).2 = t := by rw [ht]
        have hns : ¬ ((s'.ray_intersect orig dir 0).2 < sd) := fun hlt => hc ⟨h1t, hlt⟩
        rw [h2t] at hns
        exact le_trans h1 (not_lt.mp hns)
      · exact h2 s' hmem t ht

/-- If no sphere of the list is hit strictly below `sd`, the loop leaves
the state untouched. -/
lemma sceneLoop_no_improve (orig dir : Vector3) (l : List Sphere) :
    ∀ (sd : ℝ) (out : Vector3 × Vector3 × Material),
      (∀ s ∈ l, ∀ t, s.rayHit orig dir = some t → sd ≤ t) →
      sceneLoop orig dir l (sd, out) = (sd, out) := by
  induction l with
  | nil =>
    intro sd out _
    rfl
  | cons s rest ih =>
    intro sd out hall
    rw [sceneLoop]
    have hc : ¬ ((s.ray_intersect orig dir 0).1 = true ∧ (s.ray_intersect orig dir 0).2 < sd) := by
      rintro ⟨h1, h2⟩
      have hhit : s.rayHit orig dir = some (s.ray_intersect orig dir 0).2 :=
        (rayHit_eq_some_iff s orig dir _).mpr (Prod.ext h1 rfl)
      exact absurd h2 (not_lt.mpr (hall s (List.mem_cons_self s rest) _ hhit))
    rw [if_neg hc]
    exact ih sd out fun s' hs' t ht => hall s' (List.mem_cons_of_mem s hs') t ht

/-- The boolean of `scene_intersect` tests the final `spheres_dist`
against the far plane. -/
lemma scene_intersect_fst_iff (orig dir : Vector3) (spheres : List Sphere)
    (hit n : Vector3) (mat : Material) :
    ((scene_intersect orig dir spheres hit n mat).1 = true ↔
      (sceneLoop orig dir spheres (f64MAX, hit, n, mat)).1 < 1000) := by
  rw [scene_intersect]
  by_cases h : (sceneLoop orig dir spheres (f64MAX, hit, n, mat)).1 < 1000
  · simp [h]
  · simp [h]

/-- Full characterization of `scene_intersect`: the boolean is true exactly
when some sphere is hit strictly inside the far plane, and in that case the
out-parameters hold the data of a hit sphere of minimal distance. -/
lemma scene_intersect_spec (orig dir : Vector3) (spheres : List Sphere)
    (hit n : Vector3) (mat : Material) :
    ((scene_intersect orig dir spheres hit n mat).1 = true ↔
      ∃ s ∈ spheres, ∃ t, s.rayHit orig dir = some t ∧ t < 1000) ∧
    ((scene_intersect orig dir spheres hit n mat).1 = true →
      ∃ s ∈ spheres, ∃ t, s.rayHit orig dir = some t ∧ 0 ≤ t ∧ t < 1000 ∧
        (∀ s' ∈ spheres, ∀ t', s'.rayHit orig dir = some t' → t ≤ t') ∧
        (scene_intersect orig dir spheres hit n mat).2 = hitWrite orig dir s t) := by
  have hsnd : (scene_intersect orig dir spheres hit n mat).2
      = (sceneLoop orig dir spheres (f64MAX, hit, n, mat)).2 := rfl
  constructor
  · rw [scene_intersect_fst_iff]
    constructor
    · intro hlt
      rcases sceneLoop_cases orig dir spheres f64MAX (hit, n, mat) with hL | ⟨s, hs, t, ht, _, heq⟩
      · rw [hL] at hlt
        exact absurd hlt (not_lt.mpr f64MAX_ge)
      · rw [heq] at hlt
        exact ⟨s, hs, t, ht, hlt⟩
    · rintro ⟨s, hs, t, ht, hlt⟩
      exact lt_of_le_of_lt ((sceneLoop_fst_min orig dir spheres f64MAX (hit, n, mat)).2 s hs t ht)
        hlt
  · intro hb
    rw [scene_intersect_fst_iff] at hb
    rcases sceneLoop_cases orig dir spheres f64MAX (hit, n, mat) with hL | ⟨s, hs, t, ht, _, heq⟩
    · rw [hL] at hb
      exact absurd hb (not_lt.mpr f64MAX_ge)
    · have htrue : s.ray_intersect orig dir 0 = (true, t) := (rayHit_eq_some_iff s orig dir t).mp ht
      have h0 : 0 ≤ t := by
        have := ray_intersect_true_nonneg s orig dir 0 (by rw [htrue])
        rw [htrue] at this
        exact this
      have hfst : (sceneLoop orig dir spheres (f64MAX, hit, n, mat)).1 = t := by rw [heq]
      refine ⟨s, hs, t, ht, h0, by rw [hfst] at hb; exact hb, ?_, ?_⟩
      · intro s' hs' t' ht'
        have := (sceneLoop_fst_min orig dir spheres f64MAX (hit, n, mat)).2 s' hs' t' ht'
        rw [hfst] at this
        exact this
      · rw [hsnd, heq]

/-- C2: the boolean of `scene_intersect` is true exactly when some sphere
is hit at a (necessarily nonnegative) distance strictly below the far
plane of 1000 units — spheres at distance 1000 or more are not visible —
and in that case the out-parameters retain the hit point, normal and
material of a hit sphere of minimal distance. -/
theorem scene_intersect_nearest_visible (orig dir : Vector3) (spheres : List Sphere)
    (hit n : Vector3) (mat : Material) :
    ((scene_intersect orig dir spheres hit n mat).1 = true ↔
      ∃ s ∈ spheres, ∃ t, s.rayHit orig dir = some t ∧ t < 1000) ∧
    ((scene_intersect orig dir spheres hit n mat).1 = true →
      ∃ s ∈ spheres, ∃ t, s.rayHit orig dir = some t ∧ 0 ≤ t ∧ t < 1000 ∧
        (∀ s' ∈ spheres, ∀ t', s'.rayHit orig dir = some t' → t ≤ t') ∧
        (scene_intersect orig dir spheres hit n mat).2 = hitWrite orig dir s t) :=
  scene_intersect_spec orig dir spheres hit n mat

/-- C2 witness: one sphere at distance 4 makes `scene_intersect` report a
visible hit. -/
theorem scene_intersect_nearest_visible_witness :
    (scene_intersect (Vector3.new 0 0 0) (Vector3.new 0 0 (-1))
      [Sphere.new (Vector3.new 0 0 (-5)) 1 (Material.new Vector3.new_zero)]
      Vector3.new_zero Vector3.new_zero (Material.new Vector3.new_zero)).1 = true := by
  refine (scene_intersect_nearest_visible (Vector3.new 0 0 0) (Vector3.new 0 0 (-1))
    [Sphere.new (Vector3.new 0 0 (-5)) 1 (Material.new Vector3.new_zero)]
    Vector3.new_zero Vector3.new_zero (Material.new Vector3.new_zero)).1.mpr
    ⟨Sphere.new (Vector3.new 0 0 (-5)) 1 (Material.new Vector3.new_zero),
      List.mem_singleton.mpr rfl, 4, ?_, by norm_num⟩
  have h := rayHit_axis 5 1 (Material.new Vector3.new_zero) (by norm_num) (by norm_num)
  norm_num at h
  exact h

/-- C3: `cast_ray` returns the fixed background color `(0.2, 0.7, 0.8)`
when `scene_intersect` reports a miss, and the winning (minimal-distance)
material's color unmodified when it reports a hit; concretely, the ray
from the origin along `(0,0,-1)` against the single sphere at `(0,0,-16)`
of radius 2 and color `(0.4,0.4,0.3)` yields `(0.4,0.4,0.3)`, and against
the empty scene yields `(0.2,0.7,0.8)`. -/
theorem cast_ray_background_or_winner (orig dir : Vector3) (spheres : List Sphere) :
    ((scene_intersect orig dir spheres Vector3.new_zero Vector3.new_zero
        (Material.new Vector3.new_zero)).1 = false →
      cast_ray orig dir spheres = Vector3.new 0.2 0.7 0.8) ∧
    ((scene_intersect orig dir spheres Vector3.new_zero Vector3.new_zero
        (Material.new Vector3.new_zero)).1 = true →
      ∃ s ∈ spheres, ∃ t, s.rayHit orig dir = some t ∧ t < 1000 ∧
        (∀ s' ∈ spheres, ∀ t', s'.rayHit orig dir = some t' → t ≤ t') ∧
        cast_ray orig dir spheres = s.material.color) ∧
    cast_ray (Vector3.new 0 0 0) (Vector3.new 0 0 (-1))
      [Sphere.new (Vector3.new 0 0 (-16)) 2 (Material.new (Vector3.new 0.4 0.4 0.3))]
      = Vector3.new 0.4 0.4 0.3 ∧
    cast_ray (Vector3.new 0 0 0) (Vector3.new 0 0 (-1)) [] = Vector3.new 0.2 0.7 0.8 := by
  refine ⟨fun hb => ?_, fun hb => ?_, ?_, ?_⟩
  · rw [cast_ray, if_neg (by rw [hb]; exact Bool.false_ne_true)]
  · obtain ⟨s, hs, t, ht, _, hlt, hmin, hres⟩ :=
      (scene_intersect_spec orig dir spheres Vector3.new_zero Vector3.new_zero
        (Material.new Vector3.new_zero)).2 hb
    refine ⟨s, hs, t, ht, hlt, hmin, ?_⟩
    rw [cast_ray, if_pos (by rw [hb]), hres]
    rfl
  · have h := rayHit_axis 16 2 (Material.new (Vector3.new 0.4 0.4 0.3)) (by norm_num)
      (by norm_num)
    norm_num at h
    have hri : (Sphere.new (Vector3.new 0 0 (-16)) 2
        (Material.new (Vector3.new 0.4 0.4 0.3))).ray_intersect (Vector3.new 0 0 0)
        (Vector3.new 0 0 (-1)) 0 = (true, 14) :=
      (rayHit_eq_some_iff _ _ _ _).mp h
    have hloop : sceneLoop (Vector3.new 0 0 0) (Vector3.new 0 0 (-1))
        [Sphere.new (Vector3.new 0 0 (-16)) 2 (Material.new (Vector3.new 0.4 0.4 0.3))]
        (f64MAX, Vector3.new_zero, Vector3.new_zero, Material.new Vector3.new_zero)
        = (14, hitWrite (Vector3.new 0 0 0) (Vector3.new 0 0 (-1))
            (Sphere.new (Vector3.new 0 0 (-16)) 2 (Material.new (Vector3.new 0.4 0.4 0.3)))
            14) := by
      rw [sceneLoop, hri]
      rw [if_pos ⟨rfl, show (14:ℝ) < f64MAX by rw [f64MAX]; norm_num⟩]
      rw [sceneLoop]
    rw [cast_ray, scene_intersect, hloop]
    rw [if_pos (show (14:ℝ) < 1000 by norm_num)]
    rfl
  · rw [cast_ray, scene_intersect, sceneLoop]
    rw [if_neg (show ¬ (f64MAX < 1000) from not_lt.mpr f64MAX_ge)]
    rfl

/-- C3 witness: a miss (empty scene, arbitrary ray) falls back to the
background color. -/
theorem cast_ray_background_or_winner_witness :
    cast_ray (Vector3.new 1 2 3) (Vector3.new 0 1 0) [] = Vector3.new 0.2 0.7 0.8 := by
  refine (cast_ray_background_or_winner (Vector3.new 1 2 3) (Vector3.new 0 1 0) []).1 ?_
  rw [scene_intersect, sceneLoop]
  rw [if_neg (show ¬ (f64MAX < 1000) from not_lt.mpr f64MAX_ge)]

/-- C9: `scene_intersect` leaves its out-parameters untouched only when no
sphere's `ray_intersect` returns true at all; when every hit sphere lies
at distance 1000 or more (and at least one hit distance is representable,
i.e. below `f64::MAX`), the function still writes the hit point, normal
and material of the nearest such sphere while returning false. -/
theorem scene_intersect_far_hits_write (orig dir : Vector3) (spheres : List Sphere)
    (hit n : Vector3) (mat : Material) :
    ((∀ s ∈ spheres, (s.ray_intersect orig dir 0).1 = false) →
      scene_intersect orig dir spheres hit n mat = (false, hit, n, mat)) ∧
    ((∃ s ∈ spheres, ∃ t, s.rayHit orig dir = some t ∧ t < f64MAX) →
      (∀ s ∈ spheres, ∀ t, s.rayHit orig dir = some t → 1000 ≤ t) →
      (scene_intersect orig dir spheres hit n mat).1 = false ∧
      ∃ s ∈ spheres, ∃ t, s.rayHit orig dir = some t ∧
        (∀ s' ∈ spheres, ∀ t', s'.rayHit orig dir = some t' → t ≤ t') ∧
        (scene_intersect orig dir spheres hit n mat).2 = hitWrite orig dir s t) := by
  constructor
  · intro hmiss
    have hloop : sceneLoop orig dir spheres (f64MAX, hit, n, mat) = (f64MAX, hit, n, mat) := by
      apply sceneLoop_no_improve
      intro s hs t ht
      rw [rayHit_eq_some_iff] at ht
      have : (s.ray_intersect orig dir 0).1 = true := by rw [ht]
      rw [hmiss s hs] at this
      exact absurd this Bool.false_ne_true
    rw [scene_intersect, hloop]
    rw [if_neg (not_lt.mpr f64MAX_ge)]
  · rintro ⟨sw, hsw, tw, htw, htwMAX⟩ hfar
    have hub := (sceneLoop_fst_min orig dir spheres f64MAX (hit, n, mat)).2 sw hsw tw htw
    rcases sceneLoop_cases orig dir spheres f64MAX (hit, n, mat) with hL | ⟨s, hs, t, ht, _, heq⟩
    · rw [hL] at hub
      exact absurd (lt_of_le_of_lt hub htwMAX) (lt_irrefl f64MAX)
    · have hfst : (sceneLoop orig dir spheres (f64MAX, hit, n, mat)).1 = t := by rw [heq]
      constructor
      · rw [scene_intersect, heq]
        rw [if_neg (show ¬ ((t : ℝ) < 1000) from not_lt.mpr (hfar s hs t ht))]
      · refine ⟨s, hs, t, ht, ?_, ?_⟩
        · intro s' hs' t' ht'
          have := (sceneLoop_fst_min orig dir spheres f64MAX (hit, n, mat)).2 s' hs' t' ht'
          rw [hfst] at this
          exact this
        · show (sceneLoop orig dir spheres (f64MAX, hit, n, mat)).2 = _
          rw [heq]

/-- C9 witness: a lone sphere hit at distance 1999 (beyond the far plane)
makes `scene_intersect` return false while still writing its data. -/
theorem scene_intersect_far_hits_write_witness :
    (scene_intersect (Vector3.new 0 0 0) (Vector3.new 0 0 (-1))
      [Sphere.new (Vector3.new 0 0 (-2000)) 1 (Material.new Vector3.new_zero)]
      Vector3.new_zero Vector3.new_zero (Material.new Vector3.new_zero)).1 = false := by
  have h1999 : (Sphere.new (Vector3.new 0 0 (-2000)) 1
      (Material.new Vector3.new_zero)).rayHit (Vector3.new 0 0 0) (Vector3.new 0 0 (-1))
      = some 1999 := by
    have h := rayHit_axis 2000 1 (Material.new Vector3.new_zero) (by norm_num) (by norm_num)
    norm_num at h
    exact h
  refine ((scene_intersect_far_hits_write (Vector3.new 0 0 0) (Vector3.new 0 0 (-1))
    [Sphere.new (Vector3.new 0 0 (-2000)) 1 (Material.new Vector3.new_zero)]
    Vector3.new_zero Vector3.new_zero (Material.new Vector3.new_zero)).2
    ⟨Sphere.new (Vector3.new 0 0 (-2000)) 1 (Material.new Vector3.new_zero),
      List.mem_singleton.mpr rfl, 1999, h1999, by rw [f64MAX]; norm_num⟩ ?_).1
  intro s hs t ht
  rw [List.mem_singleton] at hs
  subst hs
  rw [h1999] at ht
  injection ht with ht
  rw [← ht]
  norm_num

/-- The distinct-hit-distances relation between two spheres is symmetric. -/
lemma hitsDistinct_symm (orig dir : Vector3) :
    Symmetric (fun s t : Sphere => ∀ u u', s.rayHit orig dir = some u →
      t.rayHit orig dir = some u' → u ≠ u') :=
  fun _ _ h u u' hu hu' => (h u' u hu' hu).symm

/-- The loop of `scene_intersect` processes an appended list by running
the first part and feeding its final state into the second part. -/
lemma sceneLoop_append (orig dir : Vector3) (l₁ l₂ : List Sphere) :
    ∀ st, sceneLoop orig dir (l₁ ++ l₂) st
      = sceneLoop orig dir l₂ (sceneLoop orig dir l₁ st) := by
  induction l₁ with
  | nil =>
    intro st
    rfl
  | cons s rest ih =>
    intro st
    rcases st with ⟨sd, out⟩
    rw [List.cons_append, sceneLoop, sceneLoop]
    by_cases hc : (s.ray_intersect orig dir 0).1 = true ∧ (s.ray_intersect orig dir 0).2 < sd
    · simp only [if_pos hc]
      exact ih _
    · simp only [if_neg hc]
      exact ih _

/-- Permuting a sphere list with pairwise distinct hit distances does not
change the result of `scene_intersect` (for any initial out-parameters). -/
lemma scene_intersect_perm_eq (orig dir : Vector3) (l₁ l₂ : List Sphere)
    (hperm : l₁.Perm l₂)
    (hdist : l₁.Pairwise (fun s t : Sphere => ∀ u u', s.rayHit orig dir = some u →
      t.rayHit orig dir = some u' → u ≠ u'))
    (hit n : Vector3) (mat : Material) :
    scene_intersect orig dir l₁ hit n mat = scene_intersect orig dir l₂ hit n mat := by
  have hfst : (sceneLoop orig dir l₁ (f64MAX, hit, n, mat)).1
      = (sceneLoop orig dir l₂ (f64MAX, hit, n, mat)).1 := by
    apply le_antisymm
    · rcases sceneLoop_cases orig dir l₂ f64MAX (hit, n, mat) with hL | ⟨s, hs, t, ht, _, heq⟩
      · rw [hL]
        exact (sceneLoop_fst_min orig dir l₁ f64MAX (hit, n, mat)).1
      · rw [heq]
        exact (sceneLoop_fst_min orig dir l₁ f64MAX (hit, n, mat)).2 s
          (hperm.mem_iff.mpr hs) t ht
    · rcases sceneLoop_cases orig dir l₁ f64MAX (hit, n, mat) with hL | ⟨s, hs, t, ht, _, heq⟩
      · rw [hL]
        exact (sceneLoop_fst_min orig dir l₂ f64MAX (hit, n, mat)).1
      · rw [heq]
        exact (sceneLoop_fst_min orig dir l₂ f64MAX (hit, n, mat)).2 s
          (hperm.mem_iff.mp hs) t ht
  have hpair : sceneLoop orig dir l₁ (f64MAX, hit, n, mat)
      = sceneLoop orig dir l₂ (f64MAX, hit, n, mat) := by
    rcases sceneLoop_cases orig dir l₁ f64MAX (hit, n, mat) with hL1 | ⟨s1, hs1, t1, ht1, hlt1, heq1⟩
    · rcases sceneLoop_cases orig dir l₂ f64MAX (hit, n, mat) with hL2 | ⟨s2, hs2, t2, ht2, hlt2, heq2⟩
      · rw [hL1, hL2]
      · exfalso
        have h1 : (sceneLoop orig dir l₁ (f64MAX, hit, n, mat)).1 = f64MAX := by rw [hL1]
        have h2 : (sceneLoop orig dir l₂ (f64MAX, hit, n, mat)).1 = t2 := by rw [heq2]
        rw [h1, h2] at hfst
        exact absurd hlt2 (not_lt.mpr (le_of_eq hfst))
    · rcases sceneLoop_cases orig dir l₂ f64MAX (hit, n, mat) with hL2 | ⟨s2, hs2, t2, ht2, hlt2, heq2⟩
      · exfalso
        have h1 : (sceneLoop orig dir l₁ (f64MAX, hit, n, mat)).1 = t1 := by rw [heq1]
        have h2 : (sceneLoop orig dir l₂ (f64MAX, hit, n, mat)).1 = f64MAX := by rw [hL2]
        rw [h1, h2] at hfst
        exact absurd hlt1 (not_lt.mpr (ge_of_eq hfst))
      · have htt : t1 = t2 := by
          have h1 : (sceneLoop orig dir l₁ (f64MAX, hit, n, mat)).1 = t1 := by rw [heq1]
          have h2 : (sceneLoop orig dir l₂ (f64MAX, hit, n, mat)).1 = t2 := by rw [heq2]
          rw [h1, h2] at hfst
          exact hfst
        by_cases hss : s1 = s2
        · rw [heq1, heq2, htt, hss]
        · exfalso
          exact (List.Pairwise.forall (hitsDistinct_symm orig dir) hdist hs1
            (hperm.mem_iff.mpr hs2) hss) t1 t2 ht1 ht2 htt
  rw [scene_intersect, scene_intersect, hpair]

/-- C5: with pairwise distinct hit distances, permuting the sphere
collection changes neither `scene_intersect` nor `cast_ray` — the nearest
sphere wins regardless of position — and at an exact tie the sphere
evaluated first in iteration order wins: wherever a sphere `s` sits in the
collection, if every sphere evaluated before it hits strictly farther and
every sphere evaluated after it hits no closer (exact ties allowed), the
retained out-parameters are those of `s`. -/
theorem scene_order_invariance (orig dir : Vector3) (l₁ l₂ : List Sphere)
    (hit n : Vector3) (mat : Material) :
    (l₁.Perm l₂ →
      l₁.Pairwise (fun s t : Sphere => ∀ u u', s.rayHit orig dir = some u →
        t.rayHit orig dir = some u' → u ≠ u') →
      scene_intersect orig dir l₁ hit n mat = scene_intersect orig dir l₂ hit n mat ∧
      cast_ray orig dir l₁ = cast_ray orig dir l₂) ∧
    (∀ (pre post : List Sphere) (s : Sphere) (t : ℝ),
      s.rayHit orig dir = some t → t < f64MAX →
      (∀ s' ∈ pre, ∀ t', s'.rayHit orig dir = some t' → t < t') →
      (∀ s' ∈ post, ∀ t', s'.rayHit orig dir = some t' → t ≤ t') →
      (scene_intersect orig dir (pre ++ s :: post) hit n mat).2 = hitWrite orig dir s t) := by
  constructor
  · intro hperm hdist
    refine ⟨scene_intersect_perm_eq orig dir l₁ l₂ hperm hdist hit n mat, ?_⟩
    have h0 := scene_intersect_perm_eq orig dir l₁ l₂ hperm hdist
      Vector3.new_zero Vector3.new_zero (Material.new Vector3.new_zero)
    rw [cast_ray, cast_ray, h0]
  · intro pre post s t ht htMAX hpre hpost
    have hri : s.ray_intersect orig dir 0 = (true, t) := (rayHit_eq_some_iff s orig dir t).mp ht
    rcases hst : sceneLoop orig dir pre (f64MAX, hit, n, mat) with ⟨sd', out'⟩
    have hlt : t < sd' := by
      rcases sceneLoop_cases orig dir pre f64MAX (hit, n, mat) with hL | ⟨s', hs', t', ht', _, heq'⟩
      · rw [hst] at hL
        have hsd : sd' = f64MAX := congrArg Prod.fst hL
        rw [hsd]
        exact htMAX
      · rw [hst] at heq'
        have hsd : sd' = t' := congrArg Prod.fst heq'
        rw [hsd]
        exact hpre s' hs' t' ht'
    have hloop : sceneLoop orig dir (pre ++ s :: post) (f64MAX, hit, n, mat)
        = (t, hitWrite orig dir s t) := by
      rw [sceneLoop_append, hst, sceneLoop, hri]
      rw [if_pos ⟨rfl, show ((true, t) : Bool × ℝ).2 < sd' from hlt⟩]
      exact sceneLoop_no_improve orig dir post t (hitWrite orig dir s t) hpost
    show (sceneLoop orig dir (pre ++ s :: post) (f64MAX, hit, n, mat)).2 = _
    rw [hloop]

/-- C5 witness: swapping the two (distinct-distance) spheres of a scene
leaves `cast_ray` unchanged; and in a scene holding a farther sphere
followed by two spheres tied at the minimal distance 4, the data written
is that of the first-evaluated tied sphere. -/
theorem scene_order_invariance_witness :
    (cast_ray (Vector3.new 0 0 0) (Vector3.new 0 0 (-1))
      [Sphere.new (Vector3.new 0 0 (-5)) 1 (Material.new Vector3.new_zero),
       Sphere.new (Vector3.new 0 0 (-7)) 1 (Material.new (Vector3.new 1 0 0))]
    = cast_ray (Vector3.new 0 0 0) (Vector3.new 0 0 (-1))
      [Sphere.new (Vector3.new 0 0 (-7)) 1 (Material.new (Vector3.new 1 0 0)),
       Sphere.new (Vector3.new 0 0 (-5)) 1 (Material.new Vector3.new_zero)]) ∧
    (scene_intersect (Vector3.new 0 0 0) (Vector3.new 0 0 (-1))
      [Sphere.new (Vector3.new 0 0 (-9)) 1 (Material.new Vector3.new_zero),
       Sphere.new (Vector3.new 0 0 (-5)) 1 (Material.new (Vector3.new 0 1 0)),
       Sphere.new (Vector3.new 0 0 (-5)) 1 (Material.new (Vector3.new 1 0 0))]
      Vector3.new_zero Vector3.new_zero (Material.new Vector3.new_zero)).2
    = hitWrite (Vector3.new 0 0 0) (Vector3.new 0 0 (-1))
        (Sphere.new (Vector3.new 0 0 (-5)) 1 (Material.new (Vector3.new 0 1 0))) 4 := by
  have hA : (Sphere.new (Vector3.new 0 0 (-5)) 1 (Material.new Vector3.new_zero)).rayHit
      (Vector3.new 0 0 0) (Vector3.new 0 0 (-1)) = some 4 := by
    have h := rayHit_axis 5 1 (Material.new Vector3.new_zero) (by norm_num) (by norm_num)
    norm_num at h
    exact h
  have hB : (Sphere.new (Vector3.new 0 0 (-7)) 1 (Material.new (Vector3.new 1 0 0))).rayHit
      (Vector3.new 0 0 0) (Vector3.new 0 0 (-1)) = some 6 := by
    have h := rayHit_axis 7 1 (Material.new (Vector3.new 1 0 0)) (by norm_num) (by norm_num)
    norm_num at h
    exact h
  have hFar : (Sphere.new (Vector3.new 0 0 (-9)) 1 (Material.new Vector3.new_zero)).rayHit
      (Vector3.new 0 0 0) (Vector3.new 0 0 (-1)) = some 8 := by
    have h := rayHit_axis 9 1 (Material.new Vector3.new_zero) (by norm_num) (by norm_num)
    norm_num at h
    exact h
  have hT1 : (Sphere.new (Vector3.new 0 0 (-5)) 1 (Material.new (Vector3.new 0 1 0))).rayHit
      (Vector3.new 0 0 0) (Vector3.new 0 0 (-1)) = some 4 := by
    have h := rayHit_axis 5 1 (Material.new (Vector3.new 0 1 0)) (by norm_num) (by norm_num)
    norm_num at h
    exact h
  have hT2 : (Sphere.new (Vector3.new 0 0 (-5)) 1 (Material.new (Vector3.new 1 0 0))).rayHit
      (Vector3.new 0 0 0) (Vector3.new 0 0 (-1)) = some 4 := by
    have h := rayHit_axis 5 1 (Material.new (Vector3.new 1 0 0)) (by norm_num) (by norm_num)
    norm_num at h
    exact h
  constructor
  · refine ((scene_order_invariance (Vector3.new 0 0 0) (Vector3.new 0 0 (-1))
      [Sphere.new (Vector3.new 0 0 (-5)) 1 (Material.new Vector3.new_zero),
       Sphere.new (Vector3.new 0 0 (-7)) 1 (Material.new (Vector3.new 1 0 0))]
      [Sphere.new (Vector3.new 0 0 (-7)) 1 (Material.new (Vector3.new 1 0 0)),
       Sphere.new (Vector3.new 0 0 (-5)) 1 (Material.new Vector3.new_zero)]
      Vector3.new_zero Vector3.new_zero (Material.new Vector3.new_zero)).1
      (List.Perm.swap _ _ _) ?_).2
    rw [List.pairwise_cons]
    refine ⟨?_, List.pairwise_singleton _ _⟩
    intro s' hs'
    rw [List.mem_singleton] at hs'
    subst hs'
    intro u u' hu hu'
    rw [hA] at hu
    rw [hB] at hu'
    injection hu with hu
    injection hu' with hu'
    rw [← hu, ← hu']
    norm_num
  · refine (scene_order_invariance (Vector3.new 0 0 0) (Vector3.new 0 0 (-1)) [] []
      Vector3.new_zero Vector3.new_zero (Material.new Vector3.new_zero)).2
      [Sphere.new (Vector3.new 0 0 (-9)) 1 (Material.new Vector3.new_zero)]
      [Sphere.new (Vector3.new 0 0 (-5)) 1 (Material.new (Vector3.new 1 0 0))]
      (Sphere.new (Vector3.new 0 0 (-5)) 1 (Material.new (Vector3.new 0 1 0)))
      4 hT1 (by rw [f64MAX]; norm_num) ?_ ?_
    · intro s' hs' t' ht'
      rw [List.mem_singleton] at hs'
      subst hs'
      rw [hFar] at ht'
      injection ht' with ht'
      rw [← ht']
      norm_num
    · intro s' hs' t' ht'
      rw [List.mem_singleton] at hs'
      subst hs'
      rw [hT2] at ht'
      injection ht' with ht'
      rw [← ht']

end TinyRustyRaytracer
